import Mathlib

/-!
Verification of the noir-metrics analyzer core.

This file gives a shallow embedding of the line-classification state machine
of src/analysis/file.rs (analyze_file, count_braces, line_has_todo,
is_test_file) and of the aggregation of src/analysis/project.rs
(compute_totals, analyze_project), and proves / refutes the spec claims
about them.

Lines are modelled as lists of characters (Rust `&str`); the file system is
modelled as a map from a path (a list of components) to either an I/O error
or the file's line sequence, mirroring `File::open` + `BufReader::lines`.
The `f64` field `test_code_percentage` is modelled exactly in `ℚ`.
-/

namespace NoirMetrics

/-- Whitespace test used by `trim` (ASCII subset of Rust `char::is_whitespace`). -/
def isWs (c : Char) : Bool :=
  c = ' ' || c = '\t' || c = '\r' || c = '\n'

/-- Rust `str::trim`: remove leading and trailing whitespace. -/
def trim (s : List Char) : List Char :=
  ((s.dropWhile isWs).reverse.dropWhile isWs).reverse

/-- Rust `str::starts_with`: `pre` is a prefix of `s`. -/
def startsWith (s pre : List Char) : Bool :=
  pre.isPrefixOf s

/-- Rust `str::ends_with`: `suf` is a suffix of `s`. -/
def endsWith (s suf : List Char) : Bool :=
  suf.isSuffixOf s

/-- Rust `str::contains` for a literal pattern: `pat` occurs as a contiguous
subsequence of `s`. -/
def containsSub (s pat : List Char) : Bool :=
  match s with
  | [] => pat.isPrefixOf ([] : List Char)
  | _ :: rest => pat.isPrefixOf s || containsSub rest pat

/-- Rust `str::to_lowercase` (ASCII). -/
def toLowerStr (s : List Char) : List Char :=
  s.map Char.toLower

/-- Source: src/analysis/file.rs, `count_braces`. Net brace count of a line:
each open brace is +1, each close brace is -1. -/
def count_braces (line : List Char) : Int :=
  line.foldl
    (fun delta ch =>
      if ch = '\x7b' then delta + 1
      else if ch = '\x7d' then delta - 1
      else delta)
    0

/-- Source: src/analysis/file.rs, `line_has_todo`. True when the lowercased
line contains "todo" or "fixme". -/
def line_has_todo (s : List Char) : Bool :=
  let lower := toLowerStr s
  containsSub lower "todo".data || containsSub lower "fixme".data

/-- Source: src/analysis/file.rs, `is_test_file`. A path (list of components)
is a test file when some component is exactly "tests" or "test", or the file
name (last component) ends with "_test.nr". -/
def is_test_file (rel_path : List String) : Bool :=
  if rel_path.any (fun c => c == "tests" || c == "test") then
    true
  else
    match rel_path.getLast? with
    | some file_name => endsWith file_name.data "_test.nr".data
    | none => false

/-- The mutable scan state of `analyze_file` (src/analysis/file.rs lines
84-102): the per-file counters plus the four pieces of cross-line state. -/
structure ScanState where
  total_lines : Nat
  blank_lines : Nat
  comment_lines : Nat
  code_lines : Nat
  test_functions : Nat
  test_lines : Nat
  non_test_lines : Nat
  functions : Nat
  pub_functions : Nat
  non_test_functions : Nat
  has_main : Bool
  todo_count : Nat
  pending_test_attr : Bool
  inside_test : Bool
  brace_depth : Int
  in_block_comment : Bool
  deriving Repr, DecidableEq

/-- The initial scan state: all counters zero, all flags false. -/
def init_state : ScanState :=
  { total_lines := 0, blank_lines := 0, comment_lines := 0, code_lines := 0
    test_functions := 0, test_lines := 0, non_test_lines := 0
    functions := 0, pub_functions := 0, non_test_functions := 0
    has_main := false, todo_count := 0
    pending_test_attr := false, inside_test := false
    brace_depth := 0, in_block_comment := false }

/-- Handling of a line while inside a block comment (src/analysis/file.rs
lines 110-121): count it as a comment line, scan for TODO/FIXME, and leave
the block comment when the line contains the terminator. -/
def scan_in_block (s : ScanState) (trimmed : List Char) : ScanState :=
  let s := { s with comment_lines := s.comment_lines + 1 }
  let s := if line_has_todo trimmed then { s with todo_count := s.todo_count + 1 } else s
  if containsSub trimmed "*/".data then { s with in_block_comment := false } else s

/-- Handling of a line that opens a block comment (src/analysis/file.rs
lines 123-134): count it as a comment line, scan for TODO/FIXME, and enter
the block-comment state unless the line also contains the terminator. -/
def scan_block_start (s : ScanState) (trimmed : List Char) : ScanState :=
  let s := { s with comment_lines := s.comment_lines + 1 }
  let s := if line_has_todo trimmed then { s with todo_count := s.todo_count + 1 } else s
  if !containsSub trimmed "*/".data then { s with in_block_comment := true } else s

/-- Function-declaration detection (src/analysis/file.rs lines 143-164):
on a `fn `/`pub fn ` line, bump the function counters, consume a pending
test attribute (entering the test body and resetting the brace depth), and
detect `main`. -/
def scan_fn_decl (s : ScanState) (trimmed : List Char) : ScanState :=
  let is_fn_line := startsWith trimmed "fn ".data || startsWith trimmed "pub fn ".data
  let is_pub_fn := startsWith trimmed "pub fn ".data
  if is_fn_line then
    let s := { s with functions := s.functions + 1 }
    let s := if is_pub_fn then { s with pub_functions := s.pub_functions + 1 } else s
    let s :=
      if s.pending_test_attr then
        { s with test_functions := s.test_functions + 1, inside_test := true,
                 pending_test_attr := false, brace_depth := 0 }
      else
        { s with non_test_functions := s.non_test_functions + 1 }
    if startsWith trimmed "fn main(".data || startsWith trimmed "pub fn main(".data then
      { s with has_main := true }
    else s
  else s

/-- Classification of a non-block-comment line into exactly one of the
blank / line-comment / code buckets, attributing a code line to test or
non-test lines (src/analysis/file.rs lines 166-182). -/
def scan_bucket (s : ScanState) (trimmed : List Char) (is_test_attr_line : Bool) : ScanState :=
  if trimmed.isEmpty then
    { s with blank_lines := s.blank_lines + 1 }
  else if startsWith trimmed "//".data then
    let s := { s with comment_lines := s.comment_lines + 1 }
    if line_has_todo trimmed then { s with todo_count := s.todo_count + 1 } else s
  else
    let s := { s with code_lines := s.code_lines + 1 }
    if s.inside_test || is_test_attr_line then
      { s with test_lines := s.test_lines + 1 }
    else
      { s with non_test_lines := s.non_test_lines + 1 }

/-- Brace-depth update and the leaving of a test body (src/analysis/file.rs
lines 184-189). -/
def scan_braces (s : ScanState) (line : List Char) : ScanState :=
  let s := { s with brace_depth := s.brace_depth + count_braces line }
  if s.inside_test && s.brace_depth == 0 then { s with inside_test := false } else s

/-- The body of the `for line_result in reader.lines()` loop of
`analyze_file` (src/analysis/file.rs lines 104-190), transcribed block by
block into the phase functions above. -/
def scan_line (s : ScanState) (line : List Char) : ScanState :=
  let s := { s with total_lines := s.total_lines + 1 }
  let trimmed := trim line
  if s.in_block_comment then
    scan_in_block s trimmed
  else if startsWith trimmed "/*".data then
    scan_block_start s trimmed
  else
    let is_test_attr_line := startsWith trimmed "#[test".data
    let s := if is_test_attr_line then { s with pending_test_attr := true } else s
    let s := scan_fn_decl s trimmed
    let s := scan_bucket s trimmed is_test_attr_line
    scan_braces s line

/-- Scan a whole line sequence from a given starting state. -/
def scan_from (s : ScanState) (lines : List (List Char)) : ScanState :=
  lines.foldl scan_line s

/-- Scan a whole file's line sequence from the initial state: the counter
part of `analyze_file`. -/
def analyze_lines (lines : List (List Char)) : ScanState :=
  scan_from init_state lines

/-- Source: src/analysis/file.rs, `FileMetrics`. Metrics computed for a
single `.nr` file. -/
structure FileMetrics where
  path : List String
  is_test_file : Bool
  total_lines : Nat
  blank_lines : Nat
  comment_lines : Nat
  code_lines : Nat
  test_functions : Nat
  test_lines : Nat
  non_test_lines : Nat
  functions : Nat
  pub_functions : Nat
  non_test_functions : Nat
  has_main : Bool
  todo_count : Nat
  deriving Repr, DecidableEq

/-- Rust `path.strip_prefix(project_root).unwrap_or(path)` on paths modelled
as component lists. -/
def strip_root (path root : List String) : List String :=
  if root.isPrefixOf path then path.drop root.length else path

/-- Assembly of the `FileMetrics` result from the final scan state and the
relativized path (src/analysis/file.rs lines 192-214). -/
def build_metrics (rel_path : List String) (s : ScanState) : FileMetrics :=
  { path := rel_path
    is_test_file := is_test_file rel_path
    total_lines := s.total_lines
    blank_lines := s.blank_lines
    comment_lines := s.comment_lines
    code_lines := s.code_lines
    test_functions := s.test_functions
    test_lines := s.test_lines
    non_test_lines := s.non_test_lines
    functions := s.functions
    pub_functions := s.pub_functions
    non_test_functions := s.non_test_functions
    has_main := s.has_main
    todo_count := s.todo_count }

/-- Model of a Rust `std::io::Error` as produced by `File::open` or a failed
read: an OS error code and an OS-supplied message. Neither `analyze_file`
nor `analyze_project` wraps it, so it carries exactly what the OS put in it. -/
structure IOErr where
  os_code : Nat
  os_msg : String
  deriving Repr, DecidableEq

/-- Source: src/analysis/file.rs, `analyze_file`. Opens the file through the
file-system map `fs` (an error there is propagated unchanged by the `?`
operator), scans the lines, and assembles the metrics. -/
def analyze_file (fs : List String → Except IOErr (List (List Char)))
    (path project_root : List String) : Except IOErr FileMetrics :=
  match fs path with
  | .error e => .error e
  | .ok lines => .ok (build_metrics (strip_root path project_root) (analyze_lines lines))

/-- Source: src/analysis/project.rs, `ProjectTotals`. Its fields are exactly
the ones of the Rust struct: the seven summed line/test counters, the file
count, and the derived percentage (an `f64` there, modelled exactly in ℚ). -/
structure ProjectTotals where
  files : Nat
  total_lines : Nat
  blank_lines : Nat
  comment_lines : Nat
  code_lines : Nat
  test_functions : Nat
  test_lines : Nat
  non_test_lines : Nat
  test_code_percentage : ℚ
  deriving Repr, DecidableEq

/-- Rust `ProjectTotals::default()`: all counters zero, percentage zero. -/
def totals_default : ProjectTotals :=
  { files := 0, total_lines := 0, blank_lines := 0, comment_lines := 0
    code_lines := 0, test_functions := 0, test_lines := 0, non_test_lines := 0
    test_code_percentage := 0 }

/-- The body of the `for fm in files` loop of `compute_totals`
(src/analysis/project.rs lines 76-84). -/
def totals_step (t : ProjectTotals) (fm : FileMetrics) : ProjectTotals :=
  { t with total_lines := t.total_lines + fm.total_lines
           blank_lines := t.blank_lines + fm.blank_lines
           comment_lines := t.comment_lines + fm.comment_lines
           code_lines := t.code_lines + fm.code_lines
           test_functions := t.test_functions + fm.test_functions
           test_lines := t.test_lines + fm.test_lines
           non_test_lines := t.non_test_lines + fm.non_test_lines }

/-- Source: src/analysis/project.rs, `compute_totals`. -/
def compute_totals (files : List FileMetrics) : ProjectTotals :=
  let totals := { totals_default with files := files.length }
  let totals := files.foldl totals_step totals
  { totals with
      test_code_percentage :=
        if totals.code_lines = 0 then 0
        else ((totals.test_lines : ℚ) / (totals.code_lines : ℚ)) * 100 }

/-- Source: src/analysis/project.rs, `MetricsReport`. -/
structure MetricsReport where
  project_root : List String
  totals : ProjectTotals
  files : List FileMetrics
  deriving Repr, DecidableEq

/-- The per-file loop of `analyze_project` (src/analysis/project.rs lines
55-59): analyze each file in order, stopping at the first error (the `?`
operator). -/
def analyze_files (fs : List String → Except IOErr (List (List Char)))
    (project_root : List String) :
    List (List String) → Except IOErr (List FileMetrics)
  | [] => .ok []
  | path :: rest =>
    match analyze_file fs path project_root with
    | .error e => .error e
    | .ok metrics =>
      match analyze_files fs project_root rest with
      | .error e => .error e
      | .ok rest_metrics => .ok (metrics :: rest_metrics)

/-- Source: src/analysis/project.rs, `analyze_project`: collect per-file
metrics over the discovered file list and aggregate totals. -/
def analyze_project (fs : List String → Except IOErr (List (List Char)))
    (project_root : List String) (nr_files : List (List String)) :
    Except IOErr MetricsReport :=
  match analyze_files fs project_root nr_files with
  | .error e => .error e
  | .ok files_metrics =>
    .ok { project_root := project_root
          totals := compute_totals files_metrics
          files := files_metrics }

/-- Concrete scenario file for the C2 claim: one `#[test]`-annotated
function whose body is 3 code lines, then one plain function whose body is
2 code lines. -/
def c2_file : List (List Char) :=
  ["#[test]".data,
   "fn test_add() \x7b".data,
   "    let a = 1;".data,
   "    let b = 2;".data,
   "    assert(a + b == 3);".data,
   "\x7d".data,
   "".data,
   "fn helper() \x7b".data,
   "    let x = 1;".data,
   "    let y = 2;".data,
   "\x7d".data]

/-- Concrete file for the C4 claim: a block comment whose middle line holds
two occurrences of "TODO". -/
def c4_block_file : List (List Char) :=
  ["/*".data, " TODO and TODO ".data, "*/".data]

/-- A scan state sitting inside an open block comment, with all counters
zero. -/
def block_state : ScanState :=
  { init_state with in_block_comment := true }

/-- A concrete per-file metrics value used as input to the aggregation
claims. -/
def sample_fm : FileMetrics :=
  { path := ["src", "main.nr"], is_test_file := false
    total_lines := 10, blank_lines := 1, comment_lines := 2, code_lines := 7
    test_functions := 1, test_lines := 3, non_test_lines := 4
    functions := 2, pub_functions := 1, non_test_functions := 1
    has_main := true, todo_count := 5 }

/-- The same metrics value with different function counters, TODO count and
main flag: every field that `ProjectTotals` does not carry. -/
def c1_fm_alt : FileMetrics :=
  { sample_fm with functions := 99, pub_functions := 98, non_test_functions := 97,
                   todo_count := 96, has_main := false }

/-- Concrete file for the C7 claim: a block comment opened on the first
line and never terminated. -/
def c7_file : List (List Char) :=
  ["/* opening".data, "still inside".data, "closing brace \x7d".data]

/-- Success test for a model I/O result. -/
def except_ok {α : Type} (x : Except IOErr α) : Bool :=
  match x with
  | .ok _ => true
  | .error _ => false

/-- A file system in which every open fails with the same OS error
(ENOENT), whatever the path. -/
def fs_two_missing : List String → Except IOErr (List (List Char)) :=
  fun _ => Except.error { os_code := 2, os_msg := "No such file or directory" }

/-- A file system in which only `b.nr` fails to open. -/
def fs_b_missing : List String → Except IOErr (List (List Char)) :=
  fun p =>
    if p = ["b.nr"] then Except.error { os_code := 2, os_msg := "No such file or directory" }
    else Except.ok ["fn main() \x7b \x7d".data]

/-- Concrete file for the C10 claim: a test-annotated function whose
declaration line contains a close brace but no open brace. -/
def c10_file : List (List Char) :=
  ["#[test]".data, "fn weird() \x7d".data, "body();".data]

/-- A scan state with a pending test attribute and all counters zero. -/
def pend_state : ScanState :=
  { init_state with pending_test_attr := true }

end NoirMetrics

namespace NoirMetrics

/-- Effect of the in-block-comment branch on the state, as one record
equation. -/
theorem scan_in_block_eq (s : ScanState) (t : List Char) :
    scan_in_block s t =
      { s with comment_lines := s.comment_lines + 1,
               todo_count := s.todo_count + (if line_has_todo t then 1 else 0),
               in_block_comment := if containsSub t "*/".data then false else s.in_block_comment } := by
  unfold scan_in_block
  split_ifs <;> simp_all

/-- Effect of the block-comment-opening branch on the state, as one record
equation. -/
theorem scan_block_start_eq (s : ScanState) (t : List Char) :
    scan_block_start s t =
      { s with comment_lines := s.comment_lines + 1,
               todo_count := s.todo_count + (if line_has_todo t then 1 else 0),
               in_block_comment := if containsSub t "*/".data then s.in_block_comment else true } := by
  unfold scan_block_start
  split_ifs <;> simp_all

/-- The function-declaration phase leaves every line-bucket counter, the
TODO counter and the block-comment flag unchanged. -/
theorem scan_fn_decl_buckets (s : ScanState) (t : List Char) :
    (scan_fn_decl s t).total_lines = s.total_lines ∧
    (scan_fn_decl s t).blank_lines = s.blank_lines ∧
    (scan_fn_decl s t).comment_lines = s.comment_lines ∧
    (scan_fn_decl s t).code_lines = s.code_lines ∧
    (scan_fn_decl s t).test_lines = s.test_lines ∧
    (scan_fn_decl s t).non_test_lines = s.non_test_lines ∧
    (scan_fn_decl s t).todo_count = s.todo_count ∧
    (scan_fn_decl s t).in_block_comment = s.in_block_comment := by
  unfold scan_fn_decl
  by_cases hf : startsWith t "fn ".data = true <;>
  by_cases hp : startsWith t "pub fn ".data = true <;>
  by_cases hpend : s.pending_test_attr = true <;>
  by_cases hm1 : startsWith t "fn main(".data = true <;>
  by_cases hm2 : startsWith t "pub fn main(".data = true <;>
    simp [hf, hp, hpend, hm1, hm2]

/-- The bucket phase classifies the line into exactly one bucket, and a
code line into exactly one of test and non-test lines. -/
theorem scan_bucket_ok (s : ScanState) (t : List Char) (a : Bool) :
    (scan_bucket s t a).blank_lines + (scan_bucket s t a).comment_lines + (scan_bucket s t a).code_lines
      = s.blank_lines + s.comment_lines + s.code_lines + 1 ∧
    (scan_bucket s t a).code_lines + s.test_lines + s.non_test_lines
      = s.code_lines + ((scan_bucket s t a).test_lines + (scan_bucket s t a).non_test_lines) ∧
    (scan_bucket s t a).total_lines = s.total_lines ∧
    (scan_bucket s t a).in_block_comment = s.in_block_comment := by
  unfold scan_bucket
  by_cases he : t.isEmpty = true <;>
  by_cases hc : startsWith t "//".data = true <;>
  by_cases hl : line_has_todo t = true <;>
  by_cases hi : s.inside_test = true <;>
  by_cases ha : a = true <;>
    simp [he, hc, hl, hi, ha] <;> omega

/-- The bucket phase on a code line (neither blank nor a line comment):
the line goes to the code bucket, is attributed to test or non-test lines
by the `inside_test`/attribute flags, and the TODO counter is untouched. -/
theorem scan_bucket_code (s : ScanState) (t : List Char) (a : Bool)
    (he : t.isEmpty = false) (hc : startsWith t "//".data = false) :
    (scan_bucket s t a).code_lines = s.code_lines + 1 ∧
    (scan_bucket s t a).test_lines
      = s.test_lines + (if s.inside_test || a then 1 else 0) ∧
    (scan_bucket s t a).non_test_lines
      = s.non_test_lines + (if s.inside_test || a then 0 else 1) ∧
    (scan_bucket s t a).todo_count = s.todo_count ∧
    (scan_bucket s t a).test_functions = s.test_functions ∧
    (scan_bucket s t a).inside_test = s.inside_test ∧
    (scan_bucket s t a).pending_test_attr = s.pending_test_attr ∧
    (scan_bucket s t a).brace_depth = s.brace_depth := by
  unfold scan_bucket
  by_cases hi : s.inside_test = true <;>
  by_cases ha : a = true <;>
    simp [he, hc, hi, ha]

/-- The brace phase leaves every line-bucket counter, the TODO counter and
the block-comment flag unchanged. -/
theorem scan_braces_counts (s : ScanState) (line : List Char) :
    (scan_braces s line).total_lines = s.total_lines ∧
    (scan_braces s line).blank_lines = s.blank_lines ∧
    (scan_braces s line).comment_lines = s.comment_lines ∧
    (scan_braces s line).code_lines = s.code_lines ∧
    (scan_braces s line).test_lines = s.test_lines ∧
    (scan_braces s line).non_test_lines = s.non_test_lines ∧
    (scan_braces s line).todo_count = s.todo_count ∧
    (scan_braces s line).in_block_comment = s.in_block_comment := by
  simp only [scan_braces]
  split_ifs <;> simp

/-- One scan step preserves the two partition invariants of the line
counters. -/
theorem scan_line_ok (s : ScanState) (line : List Char)
    (h1 : s.code_lines = s.test_lines + s.non_test_lines)
    (h2 : s.total_lines = s.blank_lines + s.comment_lines + s.code_lines) :
    (scan_line s line).code_lines
        = (scan_line s line).test_lines + (scan_line s line).non_test_lines ∧
    (scan_line s line).total_lines
        = (scan_line s line).blank_lines + (scan_line s line).comment_lines
            + (scan_line s line).code_lines := by
  unfold scan_line
  by_cases hb : s.in_block_comment = true
  · simp [hb, scan_in_block_eq]
    omega
  · by_cases hs : startsWith (trim line) "/*".data = true
    · simp [hb, hs, scan_block_start_eq]
      omega
    · by_cases ha : startsWith (trim line) "#[test".data = true <;>
        simp only [hb, hs, ha, if_true, if_false, Bool.false_eq_true, if_neg, ite_true, ite_false,
          Bool.true_eq_false, not_false_eq_true, reduceIte]
      · obtain ⟨f1, f2, f3, f4, f5, f6, f7, f8⟩ :=
          scan_fn_decl_buckets { s with total_lines := s.total_lines + 1, pending_test_attr := true } (trim line)
        obtain ⟨b1, b2, b3, b4⟩ :=
          scan_bucket_ok (scan_fn_decl { s with total_lines := s.total_lines + 1, pending_test_attr := true } (trim line)) (trim line) true
        obtain ⟨c1, c2, c3, c4, c5, c6, c7, c8⟩ :=
          scan_braces_counts (scan_bucket (scan_fn_decl { s with total_lines := s.total_lines + 1, pending_test_attr := true } (trim line)) (trim line) true) line
        simp_all
        omega
      · obtain ⟨f1, f2, f3, f4, f5, f6, f7, f8⟩ :=
          scan_fn_decl_buckets { s with total_lines := s.total_lines + 1 } (trim line)
        obtain ⟨b1, b2, b3, b4⟩ :=
          scan_bucket_ok (scan_fn_decl { s with total_lines := s.total_lines + 1 } (trim line)) (trim line) false
        obtain ⟨c1, c2, c3, c4, c5, c6, c7, c8⟩ :=
          scan_braces_counts (scan_bucket (scan_fn_decl { s with total_lines := s.total_lines + 1 } (trim line)) (trim line) false) line
        simp_all
        omega

/-- Unfolding lemma: scanning from a state through a cons. -/
theorem scan_from_cons (s : ScanState) (l : List Char) (ls : List (List Char)) :
    scan_from s (l :: ls) = scan_from (scan_line s l) ls := rfl

/-- Scanning any line list preserves the two partition invariants. -/
theorem scan_from_ok (lines : List (List Char)) (s : ScanState)
    (h1 : s.code_lines = s.test_lines + s.non_test_lines)
    (h2 : s.total_lines = s.blank_lines + s.comment_lines + s.code_lines) :
    (scan_from s lines).code_lines
        = (scan_from s lines).test_lines + (scan_from s lines).non_test_lines ∧
    (scan_from s lines).total_lines
        = (scan_from s lines).blank_lines + (scan_from s lines).comment_lines
            + (scan_from s lines).code_lines := by
  induction lines generalizing s with
  | nil => exact ⟨h1, h2⟩
  | cons l ls ih =>
      rw [scan_from_cons]
      obtain ⟨g1, g2⟩ := scan_line_ok s l h1 h2
      exact ih (scan_line s l) g1 g2

end NoirMetrics

namespace NoirMetrics

/-- C3: for every file system, path and project root, a successfully
returned `FileMetrics` satisfies `code_lines = test_lines + non_test_lines`
and `total_lines = blank_lines + comment_lines + code_lines`: each line is
classified into exactly one of the blank/comment/code buckets, and each
code line into exactly one of test/non-test. -/
theorem C3_partition_invariants (fs : List String → Except IOErr (List (List Char)))
    (path project_root : List String) (m : FileMetrics)
    (h : analyze_file fs path project_root = Except.ok m) :
    m.code_lines = m.test_lines + m.non_test_lines ∧
    m.total_lines = m.blank_lines + m.comment_lines + m.code_lines := by
  unfold analyze_file at h
  cases hfs : fs path with
  | error e => rw [hfs] at h; exact absurd h (by simp)
  | ok lines =>
      rw [hfs] at h
      simp only [Except.ok.injEq] at h
      subst h
      simpa [build_metrics] using scan_from_ok lines init_state (by simp [init_state]) (by simp [init_state])

/-- Witness for C3 at a concrete input: the scenario file scanned through
`analyze_file` with a one-file file system. -/
theorem C3_partition_invariants_witness :
    (build_metrics ["main.nr"] (analyze_lines c2_file)).code_lines
      = (build_metrics ["main.nr"] (analyze_lines c2_file)).test_lines
        + (build_metrics ["main.nr"] (analyze_lines c2_file)).non_test_lines ∧
    (build_metrics ["main.nr"] (analyze_lines c2_file)).total_lines
      = (build_metrics ["main.nr"] (analyze_lines c2_file)).blank_lines
        + (build_metrics ["main.nr"] (analyze_lines c2_file)).comment_lines
        + (build_metrics ["main.nr"] (analyze_lines c2_file)).code_lines :=
  C3_partition_invariants (fun _ => Except.ok c2_file) ["main.nr"] []
    (build_metrics ["main.nr"] (analyze_lines c2_file)) rfl

/-- C2 counterexample: on the scenario file (one test-annotated function
with a 3-code-line body, one plain function with a 2-code-line body) the
scanner does NOT report `test_lines = 3`, `non_test_lines = 2`,
`code_lines = 5`. -/
theorem C2_scenario_counterexample :
    ¬((analyze_lines c2_file).functions = 2 ∧
      (analyze_lines c2_file).test_functions = 1 ∧
      (analyze_lines c2_file).test_lines = 3 ∧
      (analyze_lines c2_file).non_test_lines = 2 ∧
      (analyze_lines c2_file).code_lines = 5) := by
  decide

/-- C2 amended: on that file the scanner reports `functions = 2` and
`test_functions = 1` as claimed, but `test_lines = 6`, `non_test_lines = 4`
and `code_lines = 10`: the `#[test]` attribute line, the two `fn`
declaration lines and the two closing-brace lines are code lines as well,
and those of the test function are attributed to its test lines. -/
theorem C2_scenario_actual :
    (analyze_lines c2_file).functions = 2 ∧
    (analyze_lines c2_file).test_functions = 1 ∧
    (analyze_lines c2_file).test_lines = 6 ∧
    (analyze_lines c2_file).non_test_lines = 4 ∧
    (analyze_lines c2_file).code_lines = 10 := by
  decide

/-- C4 counterexample: a block-comment line holding two occurrences of
"TODO" bumps `todo_count` by 1, not by 2: occurrences are not counted
individually. -/
theorem C4_todo_counterexample :
    (analyze_lines c4_block_file).todo_count = 1 ∧
    (analyze_lines c4_block_file).todo_count ≠ 2 := by
  decide

/-- C4 amended: `todo_count` counts comment lines containing at least one
TODO/FIXME (case-insensitive), one per line regardless of how many
occurrences the line holds: a line scanned inside a block comment bumps the
counter by exactly `1` when it contains TODO/FIXME and `0` otherwise, and a
code line (neither blank, nor a line comment, nor inside or opening a block
comment) never changes the counter. -/
theorem C4_todo_per_comment_line (s : ScanState) (line : List Char) :
    (s.in_block_comment = true →
      (scan_line s line).todo_count
        = s.todo_count + (if line_has_todo (trim line) then 1 else 0)) ∧
    (s.in_block_comment = false →
      startsWith (trim line) "/*".data = false →
      (trim line).isEmpty = false →
      startsWith (trim line) "//".data = false →
      (scan_line s line).todo_count = s.todo_count) := by
  constructor
  · intro hb
    simp [scan_line, hb, scan_in_block_eq]
  · intro hb hs he hc
    unfold scan_line
    simp only [hb, hs, Bool.false_eq_true, if_false, reduceIte]
    by_cases ha : startsWith (trim line) "#[test".data = true <;>
      simp only [ha, if_true, if_false, Bool.false_eq_true, reduceIte]
    · obtain ⟨-, -, -, -, -, -, f7, -⟩ :=
        scan_fn_decl_buckets { s with total_lines := s.total_lines + 1, pending_test_attr := true } (trim line)
      obtain ⟨-, -, -, b4, -, -, -, -⟩ :=
        scan_bucket_code (scan_fn_decl { s with total_lines := s.total_lines + 1, pending_test_attr := true } (trim line)) (trim line) true he hc
      obtain ⟨-, -, -, -, -, -, c7, -⟩ :=
        scan_braces_counts (scan_bucket (scan_fn_decl { s with total_lines := s.total_lines + 1, pending_test_attr := true } (trim line)) (trim line) true) line
      simp_all
    · obtain ⟨-, -, -, -, -, -, f7, -⟩ :=
        scan_fn_decl_buckets { s with total_lines := s.total_lines + 1 } (trim line)
      obtain ⟨-, -, -, b4, -, -, -, -⟩ :=
        scan_bucket_code (scan_fn_decl { s with total_lines := s.total_lines + 1 } (trim line)) (trim line) false he hc
      obtain ⟨-, -, -, -, -, -, c7, -⟩ :=
        scan_braces_counts (scan_bucket (scan_fn_decl { s with total_lines := s.total_lines + 1 } (trim line)) (trim line) false) line
      simp_all

/-- Witness for the amended C4 at concrete inputs: a block-comment line
with two TODO occurrences counts once; a code line containing "todo" counts
zero. -/
theorem C4_todo_per_comment_line_witness :
    (scan_line block_state " TODO and TODO ".data).todo_count = 1 ∧
    (scan_line init_state "let todo = 1;".data).todo_count = 0 :=
  ⟨((C4_todo_per_comment_line block_state " TODO and TODO ".data).1 (by decide)).trans (by decide),
   ((C4_todo_per_comment_line init_state "let todo = 1;".data).2
      (by decide) (by decide) (by decide) (by decide)).trans (by decide)⟩

end NoirMetrics

namespace NoirMetrics

/-- Unrolling of the aggregation loop: folding `totals_step` over a file
list adds the element-wise sums of the seven line/test counters and leaves
the other fields of the accumulator alone. -/
theorem totals_foldl_eq (l : List FileMetrics) (t : ProjectTotals) :
    l.foldl totals_step t =
      { t with total_lines := t.total_lines + (l.map FileMetrics.total_lines).sum,
               blank_lines := t.blank_lines + (l.map FileMetrics.blank_lines).sum,
               comment_lines := t.comment_lines + (l.map FileMetrics.comment_lines).sum,
               code_lines := t.code_lines + (l.map FileMetrics.code_lines).sum,
               test_functions := t.test_functions + (l.map FileMetrics.test_functions).sum,
               test_lines := t.test_lines + (l.map FileMetrics.test_lines).sum,
               non_test_lines := t.non_test_lines + (l.map FileMetrics.non_test_lines).sum } := by
  induction l generalizing t with
  | nil => simp
  | cons x xs ih =>
      rw [List.foldl_cons, ih]
      simp [totals_step, ProjectTotals.mk.injEq]
      refine ⟨?_, ?_, ?_, ?_, ?_, ?_, ?_⟩ <;> omega

/-- Closed form of `compute_totals`: the file count, the seven element-wise
sums, and the derived percentage. -/
theorem compute_totals_eq (files : List FileMetrics) :
    compute_totals files =
      { files := files.length,
        total_lines := (files.map FileMetrics.total_lines).sum,
        blank_lines := (files.map FileMetrics.blank_lines).sum,
        comment_lines := (files.map FileMetrics.comment_lines).sum,
        code_lines := (files.map FileMetrics.code_lines).sum,
        test_functions := (files.map FileMetrics.test_functions).sum,
        test_lines := (files.map FileMetrics.test_lines).sum,
        non_test_lines := (files.map FileMetrics.non_test_lines).sum,
        test_code_percentage :=
          if (files.map FileMetrics.code_lines).sum = 0 then 0
          else (((files.map FileMetrics.test_lines).sum : ℚ)
                  / ((files.map FileMetrics.code_lines).sum : ℚ)) * 100 } := by
  simp only [compute_totals]
  rw [totals_foldl_eq]
  simp [totals_default]

/-- C5: the aggregator never fails: the empty input yields the all-zero
totals with percentage 0, and on every input the percentage is
`100 * test_lines / code_lines` when `code_lines` is nonzero and `0` when
`code_lines = 0` (no division by zero; the `f64` is modelled exactly
in ℚ). -/
theorem C5_aggregator_never_fails :
    compute_totals [] = totals_default ∧
    ∀ files : List FileMetrics,
      ((compute_totals files).code_lines = 0 →
        (compute_totals files).test_code_percentage = 0) ∧
      ((compute_totals files).code_lines ≠ 0 →
        (compute_totals files).test_code_percentage
          = 100 * ((compute_totals files).test_lines : ℚ)
              / ((compute_totals files).code_lines : ℚ)) := by
  refine ⟨by simp [compute_totals_eq, totals_default], fun files => ⟨?_, ?_⟩⟩
  · intro h
    rw [compute_totals_eq] at h ⊢
    simp only at h ⊢
    simp [h]
  · intro h
    rw [compute_totals_eq] at h ⊢
    simp only at h ⊢
    rw [if_neg h]
    ring

/-- Witness for C5 at a concrete input with nonzero code lines. -/
theorem C5_aggregator_never_fails_witness :
    (compute_totals [sample_fm]).test_code_percentage
      = 100 * ((compute_totals [sample_fm]).test_lines : ℚ)
          / ((compute_totals [sample_fm]).code_lines : ℚ) :=
  (C5_aggregator_never_fails.2 [sample_fm]).2 (by decide)

/-- C1: the aggregation drops the function counters and the TODO count:
two single-file inputs that differ (only) in `functions`, `pub_functions`,
`non_test_functions` and `todo_count` produce identical `ProjectTotals` —
the struct has no such fields and `compute_totals` sums none of them,
although `output.rs` (print_human_summary, its tests, and the CLI tests)
reads `totals.functions`, `totals.pub_functions`, `totals.non_test_functions`,
`totals.files_with_main` and `totals.todo_count`. -/
theorem C1_function_fields_not_aggregated :
    compute_totals [sample_fm] = compute_totals [c1_fm_alt] ∧
    sample_fm.functions ≠ c1_fm_alt.functions ∧
    sample_fm.pub_functions ≠ c1_fm_alt.pub_functions ∧
    sample_fm.non_test_functions ≠ c1_fm_alt.non_test_functions ∧
    sample_fm.todo_count ≠ c1_fm_alt.todo_count := by
  refine ⟨rfl, by decide, by decide, by decide, by decide⟩

/-- C9: the aggregation is order-independent: permuted inputs yield equal
`ProjectTotals`, the derived percentage included. -/
theorem C9_compute_totals_perm (files1 files2 : List FileMetrics)
    (h : files1.Perm files2) :
    compute_totals files1 = compute_totals files2 := by
  rw [compute_totals_eq, compute_totals_eq]
  simp [h.length_eq, (h.map FileMetrics.total_lines).sum_eq,
    (h.map FileMetrics.blank_lines).sum_eq, (h.map FileMetrics.comment_lines).sum_eq,
    (h.map FileMetrics.code_lines).sum_eq, (h.map FileMetrics.test_functions).sum_eq,
    (h.map FileMetrics.test_lines).sum_eq, (h.map FileMetrics.non_test_lines).sum_eq]

/-- Witness for C9 on a concrete two-element permutation. -/
theorem C9_compute_totals_perm_witness :
    compute_totals [sample_fm, c1_fm_alt] = compute_totals [c1_fm_alt, sample_fm] :=
  C9_compute_totals_perm [sample_fm, c1_fm_alt] [c1_fm_alt, sample_fm]
    (List.Perm.swap c1_fm_alt sample_fm [])

end NoirMetrics

namespace NoirMetrics

/-- Scanning any line list from inside an open block comment, where no line
contains the terminator, counts every line as a comment line and keeps the
block-comment flag set. -/
theorem scan_from_in_block (lines : List (List Char)) (s : ScanState)
    (hb : s.in_block_comment = true)
    (hnt : ∀ l ∈ lines, containsSub (trim l) "*/".data = false) :
    (scan_from s lines).comment_lines = s.comment_lines + lines.length ∧
    (scan_from s lines).in_block_comment = true := by
  induction lines generalizing s with
  | nil => exact ⟨by simp [scan_from], hb⟩
  | cons l ls ih =>
      rw [scan_from_cons]
      have hline : scan_line s l = scan_in_block { s with total_lines := s.total_lines + 1 } (trim l) := by
        simp [scan_line, hb]
      have hl0 : containsSub (trim l) "*/".data = false := hnt l (by simp)
      have h1 : (scan_line s l).comment_lines = s.comment_lines + 1 := by
        rw [hline, scan_in_block_eq]
      have h2 : (scan_line s l).in_block_comment = true := by
        rw [hline, scan_in_block_eq]
        simp [hl0, hb]
      obtain ⟨ih1, ih2⟩ := ih (scan_line s l) h2 (fun x hx => hnt x (by simp [hx]))
      refine ⟨?_, ih2⟩
      rw [ih1, h1]
      simp [Nat.add_assoc, Nat.add_comm 1 ls.length]

/-- C7: a block comment opened and never terminated makes every following
line a comment line, the scanner staying in the block-comment state until
end of file, and `analyze_file` still returns a complete `FileMetrics`
without error. -/
theorem C7_unterminated_block (s : ScanState) (l0 : List Char) (rest : List (List Char))
    (hb : s.in_block_comment = false)
    (h0 : startsWith (trim l0) "/*".data = true)
    (h0t : containsSub (trim l0) "*/".data = false)
    (hnt : ∀ l ∈ rest, containsSub (trim l) "*/".data = false) :
    (scan_from s (l0 :: rest)).comment_lines = s.comment_lines + 1 + rest.length ∧
    (scan_from s (l0 :: rest)).in_block_comment = true ∧
    ∀ (path project_root : List String),
      analyze_file (fun _ => Except.ok (l0 :: rest)) path project_root
        = Except.ok (build_metrics (strip_root path project_root) (analyze_lines (l0 :: rest))) := by
  have hline : scan_line s l0 = scan_block_start { s with total_lines := s.total_lines + 1 } (trim l0) := by
    simp [scan_line, hb, h0]
  have h1 : (scan_line s l0).comment_lines = s.comment_lines + 1 := by
    rw [hline, scan_block_start_eq]
  have h2 : (scan_line s l0).in_block_comment = true := by
    rw [hline, scan_block_start_eq]
    simp [h0t]
  rw [scan_from_cons]
  obtain ⟨g1, g2⟩ := scan_from_in_block rest (scan_line s l0) h2 hnt
  exact ⟨by rw [g1, h1], g2, fun path project_root => rfl⟩

/-- Witness for C7 on a concrete three-line unterminated block comment. -/
theorem C7_unterminated_block_witness :
    (scan_from init_state c7_file).comment_lines = 3 ∧
    (scan_from init_state c7_file).in_block_comment = true := by
  obtain ⟨h1, h2, -⟩ :=
    C7_unterminated_block init_state "/* opening".data
      ["still inside".data, "closing brace \x7d".data]
      (by decide) (by decide) (by decide) (by decide)
  exact ⟨h1.trans (by decide), h2⟩

/-- C8: `is_test_file` holds exactly when some path component is "tests" or
"test", or the last component (the file name) ends with "_test.nr"; it is a
function of the path alone. -/
theorem C8_is_test_file_iff (rel_path : List String) :
    is_test_file rel_path = true ↔
      ((∃ c ∈ rel_path, c = "tests" ∨ c = "test") ∨
        ∃ file_name, rel_path.getLast? = some file_name ∧
          endsWith file_name.data "_test.nr".data = true) := by
  unfold is_test_file
  by_cases h : rel_path.any (fun c => c == "tests" || c == "test") = true
  · simp only [h, if_true, true_iff]
    left
    simpa using h
  · simp only [h, if_false, Bool.false_eq_true]
    have hno : ¬∃ c ∈ rel_path, c = "tests" ∨ c = "test" := by
      simpa using h
    cases hl : rel_path.getLast? with
    | none => simp [hno, hl]
    | some name => simp [hno, hl]

end NoirMetrics

namespace NoirMetrics

/-- A successful run means every file in the list was readable. -/
theorem analyze_files_ok_inv (fs : List String → Except IOErr (List (List Char)))
    (root : List String) (files : List (List String)) (ms : List FileMetrics)
    (h : analyze_files fs root files = Except.ok ms) :
    ∀ p ∈ files, except_ok (fs p) = true := by
  induction files generalizing ms with
  | nil => simp
  | cons p ps ih =>
      intro q hq
      unfold analyze_files at h
      cases hfp : fs p with
      | error e =>
          rw [show analyze_file fs p root = Except.error e by simp [analyze_file, hfp]] at h
          simp at h
      | ok lines =>
          rw [show analyze_file fs p root
                = Except.ok (build_metrics (strip_root p root) (analyze_lines lines)) by
              simp [analyze_file, hfp]] at h
          rcases List.mem_cons.mp hq with hq1 | hq1
          · subst hq1
            simp [except_ok, hfp]
          · cases hrec : analyze_files fs root ps with
            | error e2 => rw [hrec] at h; simp at h
            | ok ms2 => exact ih ms2 hrec q hq1

/-- A failed run returns the I/O error of one of the files in the list,
unchanged. -/
theorem analyze_files_err (fs : List String → Except IOErr (List (List Char)))
    (root : List String) (files : List (List String)) (e : IOErr)
    (h : analyze_files fs root files = Except.error e) :
    ∃ p ∈ files, fs p = Except.error e := by
  induction files with
  | nil => simp [analyze_files] at h
  | cons p ps ih =>
      unfold analyze_files at h
      cases hfp : fs p with
      | error e2 =>
          rw [show analyze_file fs p root = Except.error e2 by simp [analyze_file, hfp]] at h
          simp at h
          exact ⟨p, by simp, by rw [hfp, h]⟩
      | ok lines =>
          rw [show analyze_file fs p root
                = Except.ok (build_metrics (strip_root p root) (analyze_lines lines)) by
              simp [analyze_file, hfp]] at h
          cases hrec : analyze_files fs root ps with
          | error e2 =>
              rw [hrec] at h
              simp at h
              obtain ⟨q, hq1, hq2⟩ := ih (by rw [hrec, h])
              exact ⟨q, List.mem_cons_of_mem p hq1, hq2⟩
          | ok ms2 => rw [hrec] at h; simp at h

/-- C6 amended: if reading any file fails, the whole analysis run fails:
`analyze_project` returns the underlying I/O error of one of the files,
propagated unchanged, and no `MetricsReport` is produced. (The claim's
"carries the offending path" part fails: see the counterexample, where two
different offending paths yield the very same error value.) -/
theorem C6_io_failure_fatal (fs : List String → Except IOErr (List (List Char)))
    (project_root : List String) (nr_files : List (List String))
    (h : ∃ p ∈ nr_files, except_ok (fs p) = false) :
    ∃ e : IOErr,
      analyze_project fs project_root nr_files = Except.error e ∧
      ∃ p ∈ nr_files, fs p = Except.error e := by
  cases hres : analyze_files fs project_root nr_files with
  | ok ms =>
      obtain ⟨p, hp, hbad⟩ := h
      have := analyze_files_ok_inv fs project_root nr_files ms hres p hp
      rw [this] at hbad
      exact absurd hbad (by simp)
  | error e =>
      refine ⟨e, ?_, analyze_files_err fs project_root nr_files e hres⟩
      unfold analyze_project
      rw [hres]

/-- C6 counterexample: the propagated error value does not determine the
offending path: two projects whose (distinct) single files fail with the
same OS error produce exactly the same error result, so no consumer of the
returned error can recover which path failed from it. -/
theorem C6_error_has_no_path :
    analyze_project fs_two_missing [] [["a.nr"]]
      = analyze_project fs_two_missing [] [["b.nr"]] ∧
    (["a.nr"] : List String) ≠ ["b.nr"] ∧
    analyze_project fs_two_missing [] [["a.nr"]]
      = Except.error { os_code := 2, os_msg := "No such file or directory" } :=
  ⟨rfl, by decide, rfl⟩

/-- Witness for C6 on a two-file project whose second file fails to open. -/
theorem C6_io_failure_fatal_witness :
    ∃ e : IOErr,
      analyze_project fs_b_missing [] [["a.nr"], ["b.nr"]] = Except.error e ∧
      ∃ p ∈ [["a.nr"], ["b.nr"]], fs_b_missing p = Except.error e :=
  C6_io_failure_fatal fs_b_missing [] [["a.nr"], ["b.nr"]]
    ⟨["b.nr"], by simp, by simp [fs_b_missing, except_ok]⟩

end NoirMetrics

namespace NoirMetrics

/-- Two prefixes whose first characters differ cannot both match. -/
theorem startsWith_head_ne (t : List Char) (c1 c2 : Char) (p1 p2 : List Char)
    (hne : c2 ≠ c1) (h : startsWith t (c1 :: p1) = true) :
    startsWith t (c2 :: p2) = false := by
  cases t with
  | nil => simp [startsWith, List.isPrefixOf] at h
  | cons a as =>
      simp only [startsWith, List.isPrefixOf, Bool.and_eq_true, beq_iff_eq] at h
      simp [startsWith, List.isPrefixOf, beq_eq_false_iff_ne, h.1 ▸ hne]

/-- On a function-declaration line with a pending test attribute, the
declaration phase counts a test function, enters the test body, consumes
the attribute and resets the brace depth. -/
theorem scan_fn_decl_pending (s : ScanState) (t : List Char)
    (hpend : s.pending_test_attr = true)
    (hfn : startsWith t "fn ".data = true ∨ startsWith t "pub fn ".data = true) :
    (scan_fn_decl s t).test_functions = s.test_functions + 1 ∧
    (scan_fn_decl s t).inside_test = true ∧
    (scan_fn_decl s t).pending_test_attr = false ∧
    (scan_fn_decl s t).brace_depth = 0 ∧
    (scan_fn_decl s t).functions = s.functions + 1 := by
  unfold scan_fn_decl
  by_cases hf : startsWith t "fn ".data = true <;>
  by_cases hp : startsWith t "pub fn ".data = true <;>
  by_cases hm1 : startsWith t "fn main(".data = true <;>
  by_cases hm2 : startsWith t "pub fn main(".data = true <;>
    simp_all [hpend]

/-- Without a pending test attribute, the declaration phase leaves the
test-tracking state alone. -/
theorem scan_fn_decl_no_pending (s : ScanState) (t : List Char)
    (hpend : s.pending_test_attr = false) :
    (scan_fn_decl s t).inside_test = s.inside_test ∧
    (scan_fn_decl s t).pending_test_attr = false ∧
    (scan_fn_decl s t).test_functions = s.test_functions ∧
    (scan_fn_decl s t).brace_depth = s.brace_depth := by
  unfold scan_fn_decl
  by_cases hf : startsWith t "fn ".data = true <;>
  by_cases hp : startsWith t "pub fn ".data = true <;>
  by_cases hm1 : startsWith t "fn main(".data = true <;>
  by_cases hm2 : startsWith t "pub fn main(".data = true <;>
    simp_all [hpend]

/-- The bucket phase never touches the test-tracking state. -/
theorem scan_bucket_flags (s : ScanState) (t : List Char) (a : Bool) :
    (scan_bucket s t a).inside_test = s.inside_test ∧
    (scan_bucket s t a).pending_test_attr = s.pending_test_attr ∧
    (scan_bucket s t a).brace_depth = s.brace_depth ∧
    (scan_bucket s t a).test_functions = s.test_functions := by
  unfold scan_bucket
  by_cases he : t.isEmpty = true <;>
  by_cases hc : startsWith t "//".data = true <;>
  by_cases hl : line_has_todo t = true <;>
  by_cases hi : s.inside_test = true <;>
  by_cases ha : a = true <;>
    simp [he, hc, hl, hi, ha]

/-- Effect of the brace phase: the depth absorbs the line's net brace count
and the test body is left exactly when the new depth is zero. -/
theorem scan_braces_eq (s : ScanState) (line : List Char) :
    (scan_braces s line).brace_depth = s.brace_depth + count_braces line ∧
    (scan_braces s line).pending_test_attr = s.pending_test_attr ∧
    (scan_braces s line).test_functions = s.test_functions ∧
    (scan_braces s line).inside_test
      = (if s.inside_test ∧ s.brace_depth + count_braces line = 0
          then false else s.inside_test) := by
  simp only [scan_braces]
  split_ifs with h1 h2 h2 <;> simp_all

/-- C10 counterexample: on a test function whose declaration line contains
a close brace but no open brace, the brace depth after the declaration line
is -1 (not 0) and `inside_test` is NOT cleared, so the body line is
attributed to `test_lines` (not `non_test_lines`), contrary to the claim. -/
theorem C10_close_brace_decl_counterexample :
    (scan_from init_state (c10_file.take 2)).brace_depth = -1 ∧
    (scan_from init_state (c10_file.take 2)).inside_test = true ∧
    (analyze_lines c10_file).test_lines = 3 ∧
    (analyze_lines c10_file).non_test_lines = 0 ∧
    (analyze_lines c10_file).test_functions = 1 := by
  decide

/-- C10 amended: when a test-annotated function's declaration line has net
brace count zero (in particular, no brace characters at all), the brace
depth is 0 at the end of that line and `inside_test` is cleared
immediately, while `test_functions` is still incremented; consequently a
subsequent plain code line scanned outside a test is attributed to
`non_test_lines`, not `test_lines`. -/
theorem C10_braceless_test_decl (s : ScanState) (line : List Char)
    (hb : s.in_block_comment = false)
    (hpend : s.pending_test_attr = true)
    (hfn : startsWith (trim line) "fn ".data = true ∨ startsWith (trim line) "pub fn ".data = true)
    (hnb : count_braces line = 0) :
    ((scan_line s line).brace_depth = 0 ∧
     (scan_line s line).inside_test = false ∧
     (scan_line s line).test_functions = s.test_functions + 1) ∧
    ∀ (s2 : ScanState) (body : List Char),
      s2.in_block_comment = false →
      s2.inside_test = false →
      s2.pending_test_attr = false →
      startsWith (trim body) "#[test".data = false →
      startsWith (trim body) "/*".data = false →
      (trim body).isEmpty = false →
      startsWith (trim body) "//".data = false →
      (scan_line s2 body).non_test_lines = s2.non_test_lines + 1 ∧
      (scan_line s2 body).test_lines = s2.test_lines := by
  constructor
  · have hs : startsWith (trim line) "/*".data = false := by
      rcases hfn with hf | hf
      · exact startsWith_head_ne (trim line) 'f' '/' "n ".data "*".data (by decide) hf
      · exact startsWith_head_ne (trim line) 'p' '/' "ub fn ".data "*".data (by decide) hf
    have ha : startsWith (trim line) "#[test".data = false := by
      rcases hfn with hf | hf
      · exact startsWith_head_ne (trim line) 'f' '#' "n ".data "[test".data (by decide) hf
      · exact startsWith_head_ne (trim line) 'p' '#' "ub fn ".data "[test".data (by decide) hf
    unfold scan_line
    simp only [hb, hs, ha, Bool.false_eq_true, if_false, reduceIte]
    obtain ⟨d1, d2, d3, d4, d5⟩ :=
      scan_fn_decl_pending { s with total_lines := s.total_lines + 1, in_block_comment := false } (trim line) hpend hfn
    obtain ⟨k1, k2, k3, k4⟩ :=
      scan_bucket_flags (scan_fn_decl { s with total_lines := s.total_lines + 1, in_block_comment := false } (trim line))
        (trim line) false
    obtain ⟨m1, m2, m3, m4⟩ :=
      scan_braces_eq
        (scan_bucket (scan_fn_decl { s with total_lines := s.total_lines + 1, in_block_comment := false } (trim line))
          (trim line) false) line
    refine ⟨?_, ?_, ?_⟩
    · rw [m1, k3, d4, hnb]
      simp
    · rw [m4, k3, d4, k1, d2, hnb]
      simp
    · rw [m3, k4, d1]
  · intro s2 body hb2 hi2 hp2 ha2 hs2 he2 hc2
    unfold scan_line
    simp only [hb2, hs2, ha2, Bool.false_eq_true, if_false, reduceIte]
    obtain ⟨n1, n2, n3, n4⟩ :=
      scan_fn_decl_no_pending { s2 with total_lines := s2.total_lines + 1, in_block_comment := false } (trim body) hp2
    obtain ⟨-, -, -, -, w5, w6, -, -⟩ :=
      scan_fn_decl_buckets { s2 with total_lines := s2.total_lines + 1, in_block_comment := false } (trim body)
    obtain ⟨q1, q2, q3, q4, q5, q6, q7, q8⟩ :=
      scan_bucket_code (scan_fn_decl { s2 with total_lines := s2.total_lines + 1, in_block_comment := false } (trim body))
        (trim body) false he2 hc2
    obtain ⟨-, -, -, -, r5, r6, -, -⟩ :=
      scan_braces_counts
        (scan_bucket (scan_fn_decl { s2 with total_lines := s2.total_lines + 1, in_block_comment := false } (trim body))
          (trim body) false) body
    have hins : (scan_fn_decl { s2 with total_lines := s2.total_lines + 1, in_block_comment := false } (trim body)).inside_test = false := by
      rw [n1]
      exact hi2
    constructor
    · rw [r6, q3, hins, w6]
      simp
    · rw [r5, q2, hins, w5]
      simp

/-- Witness for the amended C10: a braceless test declaration line from a
pending-attribute state, then a plain body line from a clean state. -/
theorem C10_braceless_test_decl_witness :
    ((scan_line pend_state "fn t()".data).brace_depth = 0 ∧
     (scan_line pend_state "fn t()".data).inside_test = false ∧
     (scan_line pend_state "fn t()".data).test_functions = 1) ∧
    ((scan_line init_state "body();".data).non_test_lines = 1 ∧
     (scan_line init_state "body();".data).test_lines = 0) := by
  obtain ⟨h1, h2⟩ :=
    C10_braceless_test_decl pend_state "fn t()".data
      (by decide) (by decide) (Or.inl (by decide)) (by decide)
  obtain ⟨g1, g2⟩ :=
    h2 init_state "body();".data
      (by decide) (by decide) (by decide) (by decide) (by decide) (by decide) (by decide)
  exact ⟨⟨h1.1, h1.2.1, h1.2.2.trans (by decide)⟩, g1.trans (by decide), g2.trans (by decide)⟩

end NoirMetrics
